import Mathlib

/-!
Shallow embedding of `src/HealthAssistant.cpp` (a console health assistant:
user registry, two body-fat-percentage strategies, calorie/macro derivation,
delimited-record codec, aggregate statistics).

Modelling conventions:

* C++ `double` is modelled as `ℚ`.  Exact rational arithmetic stands in for
  IEEE binary64; every numeric literal appearing in the source is a decimal
  literal and is taken at its exact decimal value.
* `std::log10` is transcendental, so the US Navy computation takes the
  logarithm as an explicit function parameter `l : ℚ → ℚ`; properties proved
  about the US Navy method hold for every choice of `l`.
* Console diagnostics (the `std::cout` / `std::cerr` messages printed by
  `getBfp`, `getDailyCalories` and `getUserInfo`) are modelled by the
  inductive `Diag`; a function that may print diagnostics returns a
  `List Diag` alongside its result.
* A read of an uninitialized `double` (undefined behavior in the source,
  reached by `USNavyMethod::getBfp` when the gender is neither `"male"` nor
  `"female"`) is modelled by `none` in the `Option Int` value component of
  `bfp`.
* Dereferencing a null `UserInfo*` (undefined behavior; in practice a crash)
  is modelled by `none` in an `Option` result of the by-name operations.
* The file system is modelled as `fs : String → Option String`: `none`
  means the named file cannot be opened, `some c` means it opens with
  contents `c`.
-/

/-- `enum class BfpType`: selects the strategy used by the statistics
engine's bulk loader `UserStats::massLoadAndCompute`. -/
inductive BfpType where
  | BmiMethod
  | USNavyMethod
deriving DecidableEq

/-- The diagnostics the embedded functions can print to the console.
`ageOutOfRange` is the "outside of the permitted age range" message of the
US Navy method, `unsupportedGender` the "intake calarie wasn't able to be
processed" message of `getDailyCalories`, `noUserInList` and `userNotFound`
the two messages of `UserInfoManager::getUserInfo`. -/
inductive Diag where
  | ageOutOfRange
  | unsupportedGender
  | noUserInList
  | userNotFound
deriving DecidableEq

/-- `struct UserInfo` from the source.  The defaults are the C++ default
member initializers (the `bfp` pair is value-initialized to `(0, "")` by
`new UserInfo`; its value component is an `Option Int` here so that `none`
can stand for a value obtained from an uninitialized double). -/
structure UserInfo where
  age : Int := 0
  weight : ℚ := 0
  waist : ℚ := 0
  neck : ℚ := 0
  height : ℚ := 0
  carbs : ℚ := 0
  protein : ℚ := 0
  fat : ℚ := 0
  bfp : Option Int × String := (some 0, "")
  daily_calories : Int := 0
  hip : ℚ := 0
  name : String := ""
  gender : String := ""
  lifestyle : String := ""
deriving DecidableEq

/-- `static_cast<int>` applied to a double truncates toward zero. -/
def truncD (q : ℚ) : Int :=
  if q < 0 then -⌊-q⌋ else ⌊q⌋

/-- `USNavyMethod::getBfp(UserInfo*)`: computes the circumference-based BFP
value from the gender-specific closed form and the age-banded category, and
assigns the pair to `user->bfp`.  For an age outside the three bands the
category stays the empty string and a message is printed; for a gender
other than `"male"`/`"female"` nothing is printed and the stored value is
the cast of an uninitialized double (`none`). -/
def USNavyMethod.getBfp (l : ℚ → ℚ) (user : UserInfo) : UserInfo × List Diag :=
  if user.gender = "female" then
    let bfp : ℚ := 495 / ((1.29579 : ℚ) - (0.35004 : ℚ) * l (user.waist + user.hip - user.neck) + (0.22100 : ℚ) * l user.height) - 450
    let cd : String × List Diag :=
      if 20 ≤ user.age ∧ user.age ≤ 39 then
        (if bfp < 21 then "USNavy: Low"
         else if bfp < 33 then "USNavy: Normal"
         else if bfp < 39 then "USNavy: High"
         else "USNavy: Very High", [])
      else if 40 ≤ user.age ∧ user.age ≤ 59 then
        (if bfp < 23 then "USNavy: Low"
         else if bfp < 34 then "USNavy: Normal"
         else if bfp < 40 then "USNavy: High"
         else "USNavy: Very High", [])
      else if 60 ≤ user.age ∧ user.age ≤ 79 then
        (if bfp < 24 then "USNavy: Low"
         else if bfp < 36 then "USNavy: Normal"
         else if bfp < 42 then "USNavy: High"
         else "USNavy: Very High", [])
      else ("", [Diag.ageOutOfRange])
    ({user with bfp := (some (truncD bfp), cd.1)}, cd.2)
  else if user.gender = "male" then
    let bfp : ℚ := 495 / ((1.0324 : ℚ) - (0.19077 : ℚ) * l (user.waist - user.neck) + (0.15456 : ℚ) * l user.height) - 450
    let cd : String × List Diag :=
      if 20 ≤ user.age ∧ user.age ≤ 39 then
        (if bfp < 8 then "USNavy: Low"
         else if bfp < 20 then "USNavy: Normal"
         else if bfp < 25 then "USNavy: High"
         else "USNavy: Very High", [])
      else if 40 ≤ user.age ∧ user.age ≤ 59 then
        (if bfp < 11 then "USNavy: Low"
         else if bfp < 22 then "USNavy: Normal"
         else if bfp < 28 then "USNavy: High"
         else "USNavy: Very High", [])
      else if 60 ≤ user.age ∧ user.age ≤ 79 then
        (if bfp < 13 then "USNavy: Low"
         else if bfp < 25 then "USNavy: Normal"
         else if bfp < 30 then "USNavy: High"
         else "USNavy: Very High", [])
      else ("", [Diag.ageOutOfRange])
    ({user with bfp := (some (truncD bfp), cd.1)}, cd.2)
  else
    ({user with bfp := (none, "")}, [])

/-- `BmiMethod::getBfp(UserInfo*)`: `bfp = weight*100*100/(height*height)`,
gender-independent category bands, truncated value assigned to `user->bfp`. -/
def BmiMethod.getBfp (user : UserInfo) : UserInfo :=
  let bfp : ℚ := user.weight * 100 * 100 / (user.height * user.height)
  let category : String :=
    if bfp < (18.5 : ℚ) then "Bmi: Low"
    else if bfp < 25 then "Bmi: Normal"
    else if bfp < 30 then "Bmi: High"
    else "Bmi: Very High"
  {user with bfp := (some (truncD bfp), category)}

/-- `UserStats::usNavyMethod`: the statistics engine's own copy of the US
Navy computation; its body is textually identical to
`USNavyMethod::getBfp(UserInfo*)`. -/
def UserStats.usNavyMethod (l : ℚ → ℚ) (user : UserInfo) : UserInfo × List Diag :=
  if user.gender = "female" then
    let bfp : ℚ := 495 / ((1.29579 : ℚ) - (0.35004 : ℚ) * l (user.waist + user.hip - user.neck) + (0.22100 : ℚ) * l user.height) - 450
    let cd : String × List Diag :=
      if 20 ≤ user.age ∧ user.age ≤ 39 then
        (if bfp < 21 then "USNavy: Low"
         else if bfp < 33 then "USNavy: Normal"
         else if bfp < 39 then "USNavy: High"
         else "USNavy: Very High", [])
      else if 40 ≤ user.age ∧ user.age ≤ 59 then
        (if bfp < 23 then "USNavy: Low"
         else if bfp < 34 then "USNavy: Normal"
         else if bfp < 40 then "USNavy: High"
         else "USNavy: Very High", [])
      else if 60 ≤ user.age ∧ user.age ≤ 79 then
        (if bfp < 24 then "USNavy: Low"
         else if bfp < 36 then "USNavy: Normal"
         else if bfp < 42 then "USNavy: High"
         else "USNavy: Very High", [])
      else ("", [Diag.ageOutOfRange])
    ({user with bfp := (some (truncD bfp), cd.1)}, cd.2)
  else if user.gender = "male" then
    let bfp : ℚ := 495 / ((1.0324 : ℚ) - (0.19077 : ℚ) * l (user.waist - user.neck) + (0.15456 : ℚ) * l user.height) - 450
    let cd : String × List Diag :=
      if 20 ≤ user.age ∧ user.age ≤ 39 then
        (if bfp < 8 then "USNavy: Low"
         else if bfp < 20 then "USNavy: Normal"
         else if bfp < 25 then "USNavy: High"
         else "USNavy: Very High", [])
      else if 40 ≤ user.age ∧ user.age ≤ 59 then
        (if bfp < 11 then "USNavy: Low"
         else if bfp < 22 then "USNavy: Normal"
         else if bfp < 28 then "USNavy: High"
         else "USNavy: Very High", [])
      else if 60 ≤ user.age ∧ user.age ≤ 79 then
        (if bfp < 13 then "USNavy: Low"
         else if bfp < 25 then "USNavy: Normal"
         else if bfp < 30 then "USNavy: High"
         else "USNavy: Very High", [])
      else ("", [Diag.ageOutOfRange])
    ({user with bfp := (some (truncD bfp), cd.1)}, cd.2)
  else
    ({user with bfp := (none, "")}, [])

/-- `UserStats::bmiMethod`: the statistics engine's copy of the BMI
computation, textually identical to `BmiMethod::getBfp(UserInfo*)`. -/
def UserStats.bmiMethod (user : UserInfo) : UserInfo :=
  let bfp : ℚ := user.weight * 100 * 100 / (user.height * user.height)
  let category : String :=
    if bfp < (18.5 : ℚ) then "Bmi: Low"
    else if bfp < 25 then "Bmi: Normal"
    else if bfp < 30 then "Bmi: High"
    else "Bmi: Very High"
  {user with bfp := (some (truncD bfp), category)}

/-- `HealthAssistant::getDailyCalories(UserInfo*)`: the 2-gender by 3-band
by 3-lifestyle lookup table; `calories` starts at 0 and keeps that value
when no table entry matches; an unrecognized gender prints a message. -/
def HealthAssistant.getDailyCalories (user : UserInfo) : UserInfo × List Diag :=
  if user.gender = "male" then
    let calories : Int :=
      if 19 ≤ user.age ∧ user.age ≤ 30 then
        if user.lifestyle = "sedentary" then 2400
        else if user.lifestyle = "moderate" then 2800
        else if user.lifestyle = "active" then 3000
        else 0
      else if 31 ≤ user.age ∧ user.age ≤ 50 then
        if user.lifestyle = "sedentary" then 2200
        else if user.lifestyle = "moderate" then 2600
        else if user.lifestyle = "active" then 3000
        else 0
      else if user.age > 50 then
        if user.lifestyle = "sedentary" then 2000
        else if user.lifestyle = "moderate" then 2400
        else if user.lifestyle = "active" then 2800
        else 0
      else 0
    ({user with daily_calories := calories}, [])
  else if user.gender = "female" then
    let calories : Int :=
      if 19 ≤ user.age ∧ user.age ≤ 30 then
        if user.lifestyle = "sedentary" then 2000
        else if user.lifestyle = "moderate" then 2200
        else if user.lifestyle = "active" then 2400
        else 0
      else if 31 ≤ user.age ∧ user.age ≤ 50 then
        if user.lifestyle = "sedentary" then 1800
        else if user.lifestyle = "moderate" then 2000
        else if user.lifestyle = "active" then 2200
        else 0
      else if user.age > 50 then
        if user.lifestyle = "sedentary" then 1600
        else if user.lifestyle = "moderate" then 1800
        else if user.lifestyle = "active" then 2200
        else 0
      else 0
    ({user with daily_calories := calories}, [])
  else
    ({user with daily_calories := 0}, [Diag.unsupportedGender])

/-- `UserStats::getDailyCalories`: the statistics engine's copy of the
calorie table, textually identical to
`HealthAssistant::getDailyCalories(UserInfo*)`. -/
def UserStats.getDailyCalories (user : UserInfo) : UserInfo × List Diag :=
  if user.gender = "male" then
    let calories : Int :=
      if 19 ≤ user.age ∧ user.age ≤ 30 then
        if user.lifestyle = "sedentary" then 2400
        else if user.lifestyle = "moderate" then 2800
        else if user.lifestyle = "active" then 3000
        else 0
      else if 31 ≤ user.age ∧ user.age ≤ 50 then
        if user.lifestyle = "sedentary" then 2200
        else if user.lifestyle = "moderate" then 2600
        else if user.lifestyle = "active" then 3000
        else 0
      else if user.age > 50 then
        if user.lifestyle = "sedentary" then 2000
        else if user.lifestyle = "moderate" then 2400
        else if user.lifestyle = "active" then 2800
        else 0
      else 0
    ({user with daily_calories := calories}, [])
  else if user.gender = "female" then
    let calories : Int :=
      if 19 ≤ user.age ∧ user.age ≤ 30 then
        if user.lifestyle = "sedentary" then 2000
        else if user.lifestyle = "moderate" then 2200
        else if user.lifestyle = "active" then 2400
        else 0
      else if 31 ≤ user.age ∧ user.age ≤ 50 then
        if user.lifestyle = "sedentary" then 1800
        else if user.lifestyle = "moderate" then 2000
        else if user.lifestyle = "active" then 2200
        else 0
      else if user.age > 50 then
        if user.lifestyle = "sedentary" then 1600
        else if user.lifestyle = "moderate" then 1800
        else if user.lifestyle = "active" then 2200
        else 0
      else 0
    ({user with daily_calories := calories}, [])
  else
    ({user with daily_calories := 0}, [Diag.unsupportedGender])

/-- `HealthAssistant::getMealPrep(UserInfo*)`: splits `daily_calories` into
50 percent carbs, 30 percent protein, 20 percent fat, dividing by 4, 4 and
9 kcal per gram respectively. -/
def HealthAssistant.getMealPrep (user : UserInfo) : UserInfo :=
  let carbs_calories : ℚ := (user.daily_calories : ℚ) * (0.50 : ℚ)
  let protein_calories : ℚ := (user.daily_calories : ℚ) * (0.30 : ℚ)
  let fat_calories : ℚ := (user.daily_calories : ℚ) * (0.20 : ℚ)
  {user with carbs := carbs_calories / 4, protein := protein_calories / 4, fat := fat_calories / 9}

/-- `UserStats::getMealPrep`: the statistics engine's copy, textually
identical to `HealthAssistant::getMealPrep(UserInfo*)`. -/
def UserStats.getMealPrep (user : UserInfo) : UserInfo :=
  let carbs_calories : ℚ := (user.daily_calories : ℚ) * (0.50 : ℚ)
  let protein_calories : ℚ := (user.daily_calories : ℚ) * (0.30 : ℚ)
  let fat_calories : ℚ := (user.daily_calories : ℚ) * (0.20 : ℚ)
  {user with carbs := carbs_calories / 4, protein := protein_calories / 4, fat := fat_calories / 9}

/-- The registry: `std::vector<UserInfo*> userInfoList`, in insertion
order.  Records are held by value in the model; the C++ pointer indirection
only matters for in-place mutation, which the by-name operations model by
replacing the looked-up element. -/
abbrev Registry := List UserInfo

/-- `UserInfoManager::addUserInfo(UserInfo*)`: `push_back`, appends to the
end. -/
def UserInfoManager.addUserInfo (reg : Registry) (userInfo : UserInfo) : Registry :=
  reg ++ [userInfo]

/-- `UserInfoManager::deleteUser`: scans for the first record whose name
equals `username` and erases it; if no record matches nothing happens. -/
def UserInfoManager.deleteUser (reg : Registry) (username : String) : Registry :=
  match reg with
  | [] => []
  | u :: rest =>
    if u.name == username then rest
    else u :: UserInfoManager.deleteUser rest username

/-- `UserInfoManager::getUserInfo`: prints "no user in list" when the list
is empty, otherwise returns the first record whose name matches, printing
"user not found" and returning a null pointer (`none`) when none does. -/
def UserInfoManager.getUserInfo (reg : Registry) (username : String) : Option UserInfo × List Diag :=
  if reg.isEmpty then (none, [Diag.noUserInList])
  else
    match reg.find? (fun u => u.name == username) with
    | some u => (some u, [])
    | none => (none, [Diag.userNotFound])

/-- Replaces the first record whose name matches `username` (the element
the pointer returned by `getUserInfo` aims at) with `u2`. -/
def replaceFirst (reg : Registry) (username : String) (u2 : UserInfo) : Registry :=
  match reg with
  | [] => []
  | u :: rest =>
    if u.name == username then u2 :: rest
    else u :: replaceFirst rest username u2

/-- `USNavyMethod::getBfp(std::string)`: looks the name up and calls the
record-level `getBfp` on the resulting pointer.  When the lookup fails the
C++ dereferences the null pointer, modelled as `none`. -/
def USNavyMethod.getBfpByName (l : ℚ → ℚ) (reg : Registry) (username : String) : Option Registry × List Diag :=
  match UserInfoManager.getUserInfo reg username with
  | (none, d) => (none, d)
  | (some u, d) =>
    let r := USNavyMethod.getBfp l u
    (some (replaceFirst reg username r.1), d ++ r.2)

/-- `BmiMethod::getBfp(std::string)`: name lookup followed by the
record-level BMI `getBfp`; a failed lookup dereferences null (`none`). -/
def BmiMethod.getBfpByName (reg : Registry) (username : String) : Option Registry × List Diag :=
  match UserInfoManager.getUserInfo reg username with
  | (none, d) => (none, d)
  | (some u, d) => (some (replaceFirst reg username (BmiMethod.getBfp u)), d)

/-- `HealthAssistant::getDailyCalories(std::string)`: name lookup followed
by the record-level calorie computation; a failed lookup dereferences null
(`none`). -/
def HealthAssistant.getDailyCaloriesByName (reg : Registry) (username : String) : Option Registry × List Diag :=
  match UserInfoManager.getUserInfo reg username with
  | (none, d) => (none, d)
  | (some u, d) =>
    let r := HealthAssistant.getDailyCalories u
    (some (replaceFirst reg username r.1), d ++ r.2)

/-- `HealthAssistant::getMealPrep(std::string)`: name lookup followed by
the record-level macro split; a failed lookup dereferences null (`none`). -/
def HealthAssistant.getMealPrepByName (reg : Registry) (username : String) : Option Registry × List Diag :=
  match UserInfoManager.getUserInfo reg username with
  | (none, d) => (none, d)
  | (some u, d) => (some (replaceFirst reg username (HealthAssistant.getMealPrep u)), d)

/-- Floor of a rational (`Int.fdiv` of numerator by denominator), used by
the round-to-nearest model below.  Kept self-contained so that concrete
witnesses evaluate inside the kernel. -/
def ratFloor (q : ℚ) : Int := Int.fdiv q.num q.den

/-- Ten to an integer power, as a rational. -/
def qpow10 (e : Int) : ℚ :=
  if 0 ≤ e then ((10 : ℚ) ^ e.toNat) else 1 / ((10 : ℚ) ^ (-e).toNat)

/-- Round to the nearest integer, ties to even: the correct rounding glibc
applies when formatting a double with `<<` or `std::setprecision`. -/
def roundHalfEven (q : ℚ) : Int :=
  let f := ratFloor q
  let r := q - (f : ℚ)
  if r < 1/2 then f
  else if (1 : ℚ)/2 < r then f + 1
  else if f % 2 = 0 then f else f + 1

/-- Decimal digit count of a natural number. -/
def natDigitLen (n : Nat) : Nat := (toString n).length

/-- The decimal exponent of a positive rational `a`: the unique `e` with
`10 ^ e ≤ a < 10 ^ (e + 1)`. -/
def decExp (a : ℚ) : Int :=
  let c : Int := (natDigitLen a.num.natAbs : Int) - (natDigitLen a.den : Int)
  if a < qpow10 c then c - 1 else c

/-- Pads a digit string with leading zeros up to length `k`. -/
def padZeros (s : String) (k : Nat) : String :=
  String.mk (List.replicate (k - s.length) '0') ++ s

/-- Drops trailing zero characters from a digit string. -/
def stripTrailingZeros (s : String) : String :=
  String.mk (s.data.reverse.dropWhile (fun c => c = '0')).reverse

/-- `double_to_string(input, precision)` from the source:
`std::fixed << std::setprecision(p)`, i.e. exactly `p` digits after the
decimal point, correctly rounded.  Used with `p = 1` for the hip field. -/
def double_to_string (q : ℚ) (p : Nat) : String :=
  let n := roundHalfEven (q * ((10 : ℚ) ^ p))
  let m := n.natAbs
  let ip := m / 10 ^ p
  let fp := m % 10 ^ p
  (if n < 0 then "-" else "") ++ toString ip ++
    (if p = 0 then "" else "." ++ padZeros (toString fp) p)

/-- Default `operator<<` formatting of a double (`%g` with precision 6):
six significant digits, trailing zeros removed, fixed notation when the
decimal exponent lies in `[-4, 6)` and scientific notation otherwise. -/
def fmtG6 (q : ℚ) : String :=
  if q = 0 then "0"
  else
    let sign := if q < 0 then "-" else ""
    let a := |q|
    let e0 := decExp a
    let n0 := roundHalfEven (a * qpow10 (5 - e0))
    let n := if n0 = 10 ^ 6 then ((10 ^ 5 : Int)) else n0
    let e := if n0 = 10 ^ 6 then e0 + 1 else e0
    if -4 ≤ e ∧ e < 6 then
      if 0 ≤ e then
        let k := (5 - e).toNat
        let ip := n.natAbs / 10 ^ k
        let fp := n.natAbs % 10 ^ k
        let fracS := stripTrailingZeros (padZeros (toString fp) k)
        sign ++ toString ip ++ (if fracS = "" then "" else "." ++ fracS)
      else
        let zeros := String.mk (List.replicate (-e - 1).toNat '0')
        let ds := stripTrailingZeros (padZeros (toString n.natAbs) 6)
        sign ++ "0." ++ zeros ++ ds
    else
      let d0 := n.natAbs / 10 ^ 5
      let fr := n.natAbs % 10 ^ 5
      let frS := stripTrailingZeros (padZeros (toString fr) 5)
      let mantS := toString d0 ++ (if frS = "" then "" else "." ++ frS)
      let eAbs := e.natAbs
      let expDigits := if eAbs < 10 then "0" ++ toString eAbs else toString eAbs
      sign ++ mantS ++ "e" ++ (if e < 0 then "-" else "+") ++ expDigits

/-- `std::stoi` restricted to what the records exercise: optional spaces,
optional sign, then a nonempty run of digits (further characters are
ignored, as `stoi` ignores them); no digits means the parse throws,
modelled as `none`. -/
def stoiModel (s : String) : Option Int :=
  let cs := s.data.dropWhile (fun c => c = ' ')
  let rest := match cs with
    | '-' :: t => t
    | '+' :: t => t
    | t => t
  let neg := match cs with
    | '-' :: _ => true
    | _ => false
  let ds := rest.takeWhile Char.isDigit
  if ds.isEmpty then none
  else
    let v : Nat := ds.foldl (fun a c => a * 10 + (c.toNat - 48)) 0
    some (if neg then -(v : Int) else (v : Int))

/-- `std::stod` restricted to what the records exercise: optional spaces,
optional sign, digits with an optional fractional part, an optional
exponent; trailing characters are ignored; no digits at all means the
parse throws, modelled as `none`. -/
def stodModel (s : String) : Option ℚ :=
  let cs0 := s.data.dropWhile (fun c => c = ' ')
  let rest := match cs0 with
    | '-' :: t => t
    | '+' :: t => t
    | t => t
  let neg := match cs0 with
    | '-' :: _ => true
    | _ => false
  let ds1 := rest.takeWhile Char.isDigit
  let afterInt := rest.dropWhile Char.isDigit
  let ds2 := match afterInt with
    | '.' :: t => t.takeWhile Char.isDigit
    | _ => []
  let afterFrac := match afterInt with
    | '.' :: t => t.dropWhile Char.isDigit
    | t => t
  if ds1.isEmpty ∧ ds2.isEmpty then none
  else
    let iv : Nat := ds1.foldl (fun a c => a * 10 + (c.toNat - 48)) 0
    let fv : Nat := ds2.foldl (fun a c => a * 10 + (c.toNat - 48)) 0
    let mant : ℚ := (iv : ℚ) + (fv : ℚ) / ((10 : ℚ) ^ ds2.length)
    let expDigits := match afterFrac with
      | 'e' :: '-' :: t => t.takeWhile Char.isDigit
      | 'e' :: '+' :: t => t.takeWhile Char.isDigit
      | 'e' :: t => t.takeWhile Char.isDigit
      | 'E' :: '-' :: t => t.takeWhile Char.isDigit
      | 'E' :: '+' :: t => t.takeWhile Char.isDigit
      | 'E' :: t => t.takeWhile Char.isDigit
      | _ => []
    let expNeg := match afterFrac with
      | 'e' :: '-' :: _ => true
      | 'E' :: '-' :: _ => true
      | _ => false
    let ev : Int :=
      if expDigits.isEmpty then 0
      else
        let n : Nat := expDigits.foldl (fun a c => a * 10 + (c.toNat - 48)) 0
        if expNeg then -(n : Int) else (n : Int)
    some ((if neg then -mant else mant) * qpow10 ev)

/-- Splits a character list at a delimiter, the model of repeated
`std::getline(stream, token, delim)` until end of input. -/
def splitOnCharAux (c : Char) : List Char → List Char → List String
  | [], acc => [String.mk acc.reverse]
  | x :: rest, acc =>
    if x = c then String.mk acc.reverse :: splitOnCharAux c rest []
    else splitOnCharAux c rest (x :: acc)

/-- Splits a string at a delimiter character. -/
def splitOnChar (c : Char) (s : String) : List String :=
  splitOnCharAux c s.data []

/-- Joins tokens with commas: the model of streaming the fields separated
by `","` into an output stream, and also of the remainder-of-line read for
the final (lifestyle) field. -/
def joinComma : List String → String
  | [] => ""
  | [t] => t
  | t :: rest => t ++ "," ++ joinComma rest

/-- The nine tokens `UserInfoManager::writeToFile` emits for one record:
`name,gender,age,weight,waist,neck,hip,height,lifestyle`, the hip field
formatted to one fixed decimal for females and empty otherwise, the other
doubles in default `<<` formatting, the age in decimal. -/
def encodeTokens (user : UserInfo) : List String :=
  [user.name, user.gender, toString user.age, fmtG6 user.weight,
   fmtG6 user.waist, fmtG6 user.neck,
   (if user.gender = "female" then double_to_string user.hip 1 else ""),
   fmtG6 user.height, user.lifestyle]

/-- The one CSV line `UserInfoManager::writeToFile` appends for a record. -/
def UserInfoManager.writeLine (user : UserInfo) : String :=
  joinComma (encodeTokens user)

/-- Parsing of one CSV line, shared verbatim by
`UserInfoManager::readFromFile`, `HealthAssistant::massLoadAndCompute` and
`UserStats::massLoadAndCompute`: eight comma-delimited `getline` reads
followed by a remainder-of-line read for lifestyle; an empty hip token
becomes `0.0`; a numeric token without digits makes `stoi`/`stod` throw
(`none`); a missing token is read as the empty string. -/
def parseLine (line : String) : Option UserInfo := do
  let toks := splitOnChar ',' line
  let age ← stoiModel (toks.getD 2 "")
  let weight ← stodModel (toks.getD 3 "")
  let waist ← stodModel (toks.getD 4 "")
  let neck ← stodModel (toks.getD 5 "")
  let hipTok := toks.getD 6 ""
  let hip ← if hipTok = "" then some (0 : ℚ) else stodModel hipTok
  let height ← stodModel (toks.getD 7 "")
  some { name := toks.getD 0 "", gender := toks.getD 1 "", age := age,
         weight := weight, waist := waist, neck := neck, hip := hip,
         height := height, lifestyle := joinComma (toks.drop 8) }

/-- The lines `while (getline(file, line))` visits: splitting the contents
at newlines, where a trailing newline does not produce a final empty
line. -/
def fileLines (content : String) : List String :=
  let parts := splitOnChar '\n' content
  if parts.getLast? = some "" then parts.dropLast else parts

/-- The failures of the load pipeline: the `runtime_error` thrown when the
file cannot be opened, the `runtime_error` thrown when `tellg() == 0`, and
the exceptions `stoi`/`stod` throw on a malformed numeric token. -/
inductive LoadError where
  | sourceNotFound
  | sourceEmpty
  | parseFailure
deriving DecidableEq

/-- `UserInfoManager::readFromFile`: throws `sourceNotFound` when the file
cannot be opened, `sourceEmpty` when it opens but holds zero bytes, and
otherwise parses every line, returning the parsed records (which the C++
appends to the registry). -/
def UserInfoManager.readFromFile (fs : String → Option String) (filename : String) : Except LoadError (List UserInfo) :=
  match fs filename with
  | none => Except.error LoadError.sourceNotFound
  | some content =>
    if content.length = 0 then Except.error LoadError.sourceEmpty
    else
      match (fileLines content).mapM parseLine with
      | none => Except.error LoadError.parseFailure
      | some users => Except.ok users

/-- `UserStats::massLoadAndCompute`: same open/empty checks and line
parsing as `readFromFile`, then for each record the strategy selected by
`bfpType`, the calorie table and the macro split, collecting the records
into a fresh vector. -/
def UserStats.massLoadAndCompute (l : ℚ → ℚ) (fs : String → Option String) (filename : String) (bfpType : BfpType) : Except LoadError (List UserInfo) :=
  match fs filename with
  | none => Except.error LoadError.sourceNotFound
  | some content =>
    if content.length = 0 then Except.error LoadError.sourceEmpty
    else
      match (fileLines content).mapM parseLine with
      | none => Except.error LoadError.parseFailure
      | some users =>
        Except.ok (users.map (fun u =>
          let u1 :=
            match bfpType with
            | BfpType.BmiMethod => UserStats.bmiMethod u
            | BfpType.USNavyMethod => (UserStats.usNavyMethod l u).1
          let u2 := (UserStats.getDailyCalories u1).1
          UserStats.getMealPrep u2))

/-- The counters `UserStats::GetFullStats` accumulates and prints. -/
structure FullStats where
  totalUsers : Nat
  maleCount : Nat
  femaleCount : Nat
  healthyBmiCount : Nat
  healthyUsArmyCount : Nat
  healthyMaleBmiCount : Nat
  healthyFemaleBmiCount : Nat
  healthyMaleUsArmyCount : Nat
  healthyFemaleUsArmyCount : Nat
deriving DecidableEq

/-- `UserStats::GetFullStats`: reloads `bmi_user_data.csv` with
`BfpType::BmiMethod` and `us_user_data.csv` also with `BfpType::BmiMethod`
(the source passes the BMI selector for the US Navy file too), then counts
genders over both lists, records with category `"Bmi: Normal"` in the BMI
list, and records with category `"Bmi: Normal"` in the US list (the source
compares against the BMI label in the US loop as well). -/
def UserStats.GetFullStats (l : ℚ → ℚ) (fs : String → Option String) : Except LoadError FullStats := do
  let bmiUserStats ← UserStats.massLoadAndCompute l fs "bmi_user_data.csv" BfpType.BmiMethod
  let usUserStats ← UserStats.massLoadAndCompute l fs "us_user_data.csv" BfpType.BmiMethod
  pure {
    totalUsers := bmiUserStats.length + usUserStats.length
    maleCount := bmiUserStats.countP (fun u => u.gender == "male") + usUserStats.countP (fun u => u.gender == "male")
    femaleCount := bmiUserStats.countP (fun u => u.gender == "female") + usUserStats.countP (fun u => u.gender == "female")
    healthyBmiCount := bmiUserStats.countP (fun u => u.bfp.2 == "Bmi: Normal")
    healthyUsArmyCount := usUserStats.countP (fun u => u.bfp.2 == "Bmi: Normal")
    healthyMaleBmiCount := bmiUserStats.countP (fun u => u.bfp.2 == "Bmi: Normal" && u.gender == "male")
    healthyFemaleBmiCount := bmiUserStats.countP (fun u => u.bfp.2 == "Bmi: Normal" && u.gender == "female")
    healthyMaleUsArmyCount := usUserStats.countP (fun u => u.bfp.2 == "Bmi: Normal" && u.gender == "male")
    healthyFemaleUsArmyCount := usUserStats.countP (fun u => u.bfp.2 == "Bmi: Normal" && u.gender == "female") }

/-- Equality of the raw (non-derived) measurement fields of two records. -/
def rawFieldsEq (a b : UserInfo) : Prop :=
  a.name = b.name ∧ a.gender = b.gender ∧ a.age = b.age ∧ a.weight = b.weight ∧
  a.waist = b.waist ∧ a.neck = b.neck ∧ a.hip = b.hip ∧ a.height = b.height ∧
  a.lifestyle = b.lifestyle

/-- The round-trip property the spec claims for the record codec: encoding
then decoding reproduces every persisted field exactly, with the hip field
reproduced exactly for females and decoded as `0.0` otherwise. -/
def roundTripExact (r : UserInfo) : Prop :=
  ∃ r2, parseLine (UserInfoManager.writeLine r) = some r2 ∧
    r2.name = r.name ∧ r2.gender = r.gender ∧ r2.age = r.age ∧
    r2.weight = r.weight ∧ r2.waist = r.waist ∧ r2.neck = r.neck ∧
    r2.height = r.height ∧ r2.lifestyle = r.lifestyle ∧
    (r.gender = "female" → r2.hip = r.hip) ∧
    (r.gender ≠ "female" → r2.hip = 0)

/-- The error-handling behavior the spec claims of the US Navy computation
at an out-of-domain input: the category component stays empty and the
condition is reported (at least one diagnostic is printed). -/
def usNavyOutOfDomainReported (l : ℚ → ℚ) (u : UserInfo) : Prop :=
  (¬ (20 ≤ u.age ∧ u.age ≤ 79) ∨ (u.gender ≠ "male" ∧ u.gender ≠ "female")) →
    (USNavyMethod.getBfp l u).1.bfp.2 = "" ∧ (USNavyMethod.getBfp l u).2 ≠ []

/-- Example record: a male whose BMI (80 kg, 180 cm) is 24.69, category
`"Bmi: Normal"`. -/
def bobRec : UserInfo :=
  { name := "bob", gender := "male", age := 30, weight := 80, waist := 90,
    neck := 38, height := 180, lifestyle := "active" }

/-- Example record: a 15-year-old male (outside the US Navy age domain)
whose BMI (70 kg, 170 cm) is 24.2, category `"Bmi: Normal"`. -/
def samRec : UserInfo :=
  { name := "sam", gender := "male", age := 15, weight := 70, waist := 80,
    neck := 35, height := 170, lifestyle := "active" }

/-- File system holding one record per canonical source: `bobRec`'s line in
the BMI file and `samRec`'s line in the US Navy file. -/
def c1Fs : String → Option String := fun n =>
  if n = "bmi_user_data.csv" then some "bob,male,30,80,90,38,,180,active"
  else if n = "us_user_data.csv" then some "sam,male,15,70,80,35,,170,active"
  else none

/-- Example record used as registry content for lookups by another name. -/
def aliceRec : UserInfo :=
  { name := "alice", gender := "female", age := 30, weight := 60, waist := 70,
    neck := 30, hip := 100, height := 165, lifestyle := "moderate" }

/-- Example record present in a registry under the name `"john"`. -/
def johnRec : UserInfo :=
  { name := "john", gender := "male", age := 25, weight := 80, waist := 90,
    neck := 38, height := 180, lifestyle := "active" }

/-- Example female record whose hip, 97.25 cm, needs more than one decimal
digit. -/
def amyQuarterRec : UserInfo :=
  { name := "amy", gender := "female", age := 30, weight := 60, waist := 70,
    neck := 30, hip := 97.25, height := 165, lifestyle := "active" }

/-- The record decoding the encoded line of `amyQuarterRec`: its hip is
`97.2` (= 486/5), as one fixed decimal was written. -/
def amyParsedRec : UserInfo :=
  { name := "amy", gender := "female", age := 30, weight := 60, waist := 70,
    neck := 30, hip := 486/5, height := 165, lifestyle := "active" }

/-- Example female record whose every numeric field survives the emitted
formatting exactly (hip 97.5 cm has a single decimal digit). -/
def amyHalfRec : UserInfo :=
  { name := "ann", gender := "female", age := 30, weight := 60, waist := 70,
    neck := 30, hip := 97.5, height := 165, lifestyle := "active" }

/-- Example record with a gender outside the two the source recognizes. -/
def otherGenderRec : UserInfo :=
  { name := "pat", gender := "other", age := 30, weight := 70, waist := 80,
    neck := 35, height := 175, lifestyle := "active" }

/-- Example record with a recognized gender but age outside `[20, 79]`. -/
def elderRec : UserInfo :=
  { name := "joe", gender := "male", age := 85, weight := 70, waist := 80,
    neck := 35, height := 175, lifestyle := "sedentary" }

/-- Example female record for the calorie table: age 25, active. -/
def chloeRec : UserInfo :=
  { name := "chloe", gender := "female", age := 25, weight := 60, waist := 70,
    neck := 30, hip := 95, height := 165, lifestyle := "active" }

/-- Example male record for the calorie table: age 55, sedentary. -/
def stanRec : UserInfo :=
  { name := "stan", gender := "male", age := 55, weight := 85, waist := 95,
    neck := 40, height := 178, lifestyle := "sedentary" }

/-- Example female record with the same weight and height as `maxRec`. -/
def lindaRec : UserInfo :=
  { name := "linda", gender := "female", age := 25, weight := 60, waist := 70,
    neck := 30, hip := 95, height := 165, lifestyle := "moderate" }

/-- Example male record with the same weight and height as `lindaRec` but a
different gender and age. -/
def maxRec : UserInfo :=
  { name := "max", gender := "male", age := 60, weight := 60, waist := 75,
    neck := 36, height := 165, lifestyle := "active" }

theorem deleteUser_no_match (reg : Registry) (n : String)
    (h : ∀ u ∈ reg, u.name ≠ n) : UserInfoManager.deleteUser reg n = reg := by
  induction reg with
  | nil => rfl
  | cons u rest ih =>
    have hu : (u.name == n) = false :=
      beq_eq_false_iff_ne.mpr (h u (List.mem_cons_self u rest))
    simp only [UserInfoManager.deleteUser, hu, Bool.false_eq_true, if_false,
      List.cons.injEq, true_and]
    exact ih (fun v hv => h v (List.mem_cons_of_mem u hv))

/-- C2: the source reports a failed by-name lookup (a diagnostic is printed
and a null pointer returned), but each by-name operation then dereferences
the null pointer — undefined behavior, modelled as the `none` (crashed)
outcome — instead of recovering; so lookup of an absent name is fatal for
`getBfp`, `getDailyCalories` and `getMealPrep`, on the empty registry and
on a registry without the requested name alike. -/
theorem C2_code_eval :
    HealthAssistant.getDailyCaloriesByName [] "john" = (none, [Diag.noUserInList]) ∧
    USNavyMethod.getBfpByName (fun _ => 0) [] "john" = (none, [Diag.noUserInList]) ∧
    BmiMethod.getBfpByName [] "john" = (none, [Diag.noUserInList]) ∧
    HealthAssistant.getMealPrepByName [] "john" = (none, [Diag.noUserInList]) ∧
    HealthAssistant.getDailyCaloriesByName [aliceRec] "john" = (none, [Diag.userNotFound]) ∧
    USNavyMethod.getBfpByName (fun _ => 0) [aliceRec] "john" = (none, [Diag.userNotFound]) ∧
    HealthAssistant.getMealPrepByName [aliceRec] "john" = (none, [Diag.userNotFound]) := by
  with_unfolding_all decide

/-- C7: the BMI (ratio) method is symmetric across genders and ages — for
two records with the same weight and height it stores the same truncated
value and the same category, and that pair is the truncated
`weight*100*100/height²` with the gender-independent 18.5/25/30 bands. -/
theorem C7_thm : ∀ u v : UserInfo, u.weight = v.weight → u.height = v.height →
    (BmiMethod.getBfp u).bfp = (BmiMethod.getBfp v).bfp ∧
    (BmiMethod.getBfp u).bfp =
      (some (truncD (u.weight * 100 * 100 / (u.height * u.height))),
       if u.weight * 100 * 100 / (u.height * u.height) < (18.5 : ℚ) then "Bmi: Low"
       else if u.weight * 100 * 100 / (u.height * u.height) < 25 then "Bmi: Normal"
       else if u.weight * 100 * 100 / (u.height * u.height) < 30 then "Bmi: High"
       else "Bmi: Very High") := by
  intro u v hw hh
  constructor
  · simp only [BmiMethod.getBfp, hw, hh]
  · simp only [BmiMethod.getBfp]

/-- Witness for C7 at two records of different gender and age but equal
weight and height. -/
theorem C7_witness :
    (BmiMethod.getBfp lindaRec).bfp = (BmiMethod.getBfp maxRec).bfp ∧
    (BmiMethod.getBfp lindaRec).bfp =
      (some (truncD (lindaRec.weight * 100 * 100 / (lindaRec.height * lindaRec.height))),
       if lindaRec.weight * 100 * 100 / (lindaRec.height * lindaRec.height) < (18.5 : ℚ) then "Bmi: Low"
       else if lindaRec.weight * 100 * 100 / (lindaRec.height * lindaRec.height) < 25 then "Bmi: Normal"
       else if lindaRec.weight * 100 * 100 / (lindaRec.height * lindaRec.height) < 30 then "Bmi: High"
       else "Bmi: Very High") :=
  C7_thm lindaRec maxRec rfl rfl

/-- C9: the registry append adds at the end of the sequence, deleting an
absent name is a no-op, and deleting the middle of three records by name
leaves the other two in their original relative order. -/
theorem C9_thm : ∀ (reg : Registry) (n : String) (a b c : UserInfo),
    (UserInfoManager.addUserInfo reg a = reg ++ [a]) ∧
    ((∀ u ∈ reg, u.name ≠ n) → UserInfoManager.deleteUser reg n = reg) ∧
    (a.name ≠ b.name → c.name ≠ b.name →
      UserInfoManager.deleteUser
        (UserInfoManager.addUserInfo (UserInfoManager.addUserInfo (UserInfoManager.addUserInfo [] a) b) c)
        b.name = [a, c]) := by
  intro reg n a b c
  refine ⟨rfl, deleteUser_no_match reg n, ?_⟩
  intro hab hcb
  have h1 : (a.name == b.name) = false := beq_eq_false_iff_ne.mpr hab
  have h2 : (b.name == b.name) = true := beq_self_eq_true b.name
  simp [UserInfoManager.addUserInfo, UserInfoManager.deleteUser, h1, h2]

/-- Witness for C9: three concrete records, deleting the middle one by
name, and a no-op delete of an absent name. -/
theorem C9_witness :
    UserInfoManager.deleteUser
      (UserInfoManager.addUserInfo (UserInfoManager.addUserInfo (UserInfoManager.addUserInfo [] bobRec) samRec) aliceRec)
      samRec.name = [bobRec, aliceRec] ∧
    UserInfoManager.deleteUser [bobRec] "zoe" = [bobRec] :=
  ⟨(C9_thm [] samRec.name bobRec samRec aliceRec).2.2 (by with_unfolding_all decide) (by with_unfolding_all decide),
   (C9_thm [bobRec] "zoe" bobRec samRec aliceRec).2.1 (by with_unfolding_all decide)⟩

/-- C10: each derivation writes only its own derived fields — the two BFP
computations change at most `bfp`, the calorie computation at most
`daily_calories`, the meal-prep computation at most `carbs`, `protein` and
`fat` — and none of them touches any raw measurement field. -/
theorem C10_thm : ∀ (l : ℚ → ℚ) (u : UserInfo),
    (rawFieldsEq ((USNavyMethod.getBfp l u).1) u ∧
     (USNavyMethod.getBfp l u).1.daily_calories = u.daily_calories ∧
     (USNavyMethod.getBfp l u).1.carbs = u.carbs ∧
     (USNavyMethod.getBfp l u).1.protein = u.protein ∧
     (USNavyMethod.getBfp l u).1.fat = u.fat) ∧
    (rawFieldsEq (BmiMethod.getBfp u) u ∧
     (BmiMethod.getBfp u).daily_calories = u.daily_calories ∧
     (BmiMethod.getBfp u).carbs = u.carbs ∧
     (BmiMethod.getBfp u).protein = u.protein ∧
     (BmiMethod.getBfp u).fat = u.fat) ∧
    (rawFieldsEq ((HealthAssistant.getDailyCalories u).1) u ∧
     (HealthAssistant.getDailyCalories u).1.bfp = u.bfp ∧
     (HealthAssistant.getDailyCalories u).1.carbs = u.carbs ∧
     (HealthAssistant.getDailyCalories u).1.protein = u.protein ∧
     (HealthAssistant.getDailyCalories u).1.fat = u.fat) ∧
    (rawFieldsEq (HealthAssistant.getMealPrep u) u ∧
     (HealthAssistant.getMealPrep u).bfp = u.bfp ∧
     (HealthAssistant.getMealPrep u).daily_calories = u.daily_calories) := by
  intro l u
  refine ⟨?_, ?_, ?_, ?_⟩
  · by_cases hf : u.gender = "female" <;> by_cases hm : u.gender = "male" <;>
      simp [USNavyMethod.getBfp, rawFieldsEq, hf, hm]
  · simp [BmiMethod.getBfp, rawFieldsEq]
  · by_cases hf : u.gender = "female" <;> by_cases hm : u.gender = "male" <;>
      simp [HealthAssistant.getDailyCalories, rawFieldsEq, hf, hm]
  · simp [HealthAssistant.getMealPrep, rawFieldsEq]

/-- C4 counterexample: for a record whose gender is `"other"` (outside
{male, female}) the claim's "the condition is reported" clause fails — the
US Navy computation prints nothing on the unrecognized-gender path. -/
theorem C4_cex : ¬ usNavyOutOfDomainReported (fun _ => 0) otherGenderRec := by
  intro h
  have hc := h (Or.inr ⟨by decide, by decide⟩)
  exact hc.2 rfl

/-- C4 (amended): for a recognized gender with age outside `[20, 79]` the
category is left empty, the condition is reported and a numeric value is
still stored; for a gender outside {male, female} the category is left
empty and no value is determined, but the condition is not reported. -/
theorem C4_thm : ∀ (l : ℚ → ℚ) (u : UserInfo),
    ((u.gender = "male" ∨ u.gender = "female") → ¬ (20 ≤ u.age ∧ u.age ≤ 79) →
      (USNavyMethod.getBfp l u).1.bfp.2 = "" ∧
      (USNavyMethod.getBfp l u).2 = [Diag.ageOutOfRange] ∧
      ((USNavyMethod.getBfp l u).1.bfp.1).isSome = true) ∧
    (u.gender ≠ "male" → u.gender ≠ "female" →
      (USNavyMethod.getBfp l u).1.bfp = (none, "") ∧
      (USNavyMethod.getBfp l u).2 = []) := by
  intro l u
  constructor
  · rintro (hg | hg) hage <;>
    · have h1 : ¬ (20 ≤ u.age ∧ u.age ≤ 39) := by omega
      have h2 : ¬ (40 ≤ u.age ∧ u.age ≤ 59) := by omega
      have h3 : ¬ (60 ≤ u.age ∧ u.age ≤ 79) := by omega
      simp [USNavyMethod.getBfp, hg, h1, h2, h3]
  · intro hm hf
    simp [USNavyMethod.getBfp, hm, hf]

/-- Witness for C4 at a male of age 85 and at a record of unrecognized
gender. -/
theorem C4_witness :
    ((USNavyMethod.getBfp (fun _ => 0) elderRec).1.bfp.2 = "" ∧
     (USNavyMethod.getBfp (fun _ => 0) elderRec).2 = [Diag.ageOutOfRange] ∧
     ((USNavyMethod.getBfp (fun _ => 0) elderRec).1.bfp.1).isSome = true) ∧
    ((USNavyMethod.getBfp (fun _ => 0) otherGenderRec).1.bfp = (none, "") ∧
     (USNavyMethod.getBfp (fun _ => 0) otherGenderRec).2 = []) :=
  ⟨(C4_thm (fun _ => 0) elderRec).1 (Or.inl rfl) (by decide),
   (C4_thm (fun _ => 0) otherGenderRec).2 (by decide) (by decide)⟩

/-- C5: loading from a source that cannot be opened fails with
`sourceNotFound`, loading from an openable zero-length source fails with
`sourceEmpty`, the two error kinds are distinct, and a successful load
(never an error turned into zero records) requires an openable non-empty
source — for the registry reader and the statistics bulk loader alike. -/
theorem C5_thm : ∀ (fs : String → Option String) (filename : String) (l : ℚ → ℚ) (t : BfpType),
    (fs filename = none →
      UserInfoManager.readFromFile fs filename = Except.error LoadError.sourceNotFound ∧
      UserStats.massLoadAndCompute l fs filename t = Except.error LoadError.sourceNotFound) ∧
    (∀ content, fs filename = some content → content.length = 0 →
      UserInfoManager.readFromFile fs filename = Except.error LoadError.sourceEmpty ∧
      UserStats.massLoadAndCompute l fs filename t = Except.error LoadError.sourceEmpty) ∧
    LoadError.sourceNotFound ≠ LoadError.sourceEmpty ∧
    (∀ users, UserInfoManager.readFromFile fs filename = Except.ok users →
      ∃ content, fs filename = some content ∧ content.length ≠ 0) := by
  intro fs filename l t
  refine ⟨?_, ?_, by decide, ?_⟩
  · intro h
    constructor
    · simp [UserInfoManager.readFromFile, h]
    · simp [UserStats.massLoadAndCompute, h]
  · intro content h hz
    constructor
    · simp [UserInfoManager.readFromFile, h, hz]
    · simp [UserStats.massLoadAndCompute, h, hz]
  · intro users h
    cases hf : fs filename with
    | none =>
      rw [UserInfoManager.readFromFile, hf] at h
      cases h
    | some content =>
      refine ⟨content, rfl, ?_⟩
      intro hz
      rw [UserInfoManager.readFromFile, hf] at h
      simp [hz] at h

/-- Witness for C5 at an unopenable source and at an empty source. -/
theorem C5_witness :
    UserInfoManager.readFromFile (fun _ => none) "nofile.csv" = Except.error LoadError.sourceNotFound ∧
    UserStats.massLoadAndCompute (fun _ => 0) (fun _ => none) "nofile.csv" BfpType.BmiMethod = Except.error LoadError.sourceNotFound ∧
    UserInfoManager.readFromFile (fun _ => some "") "empty.csv" = Except.error LoadError.sourceEmpty ∧
    UserStats.massLoadAndCompute (fun _ => 0) (fun _ => some "") "empty.csv" BfpType.USNavyMethod = Except.error LoadError.sourceEmpty :=
  ⟨((C5_thm (fun _ => none) "nofile.csv" (fun _ => 0) BfpType.BmiMethod).1 rfl).1,
   ((C5_thm (fun _ => none) "nofile.csv" (fun _ => 0) BfpType.BmiMethod).1 rfl).2,
   ((C5_thm (fun _ => some "") "empty.csv" (fun _ => 0) BfpType.BmiMethod).2.1 "" rfl rfl).1,
   ((C5_thm (fun _ => some "") "empty.csv" (fun _ => 0) BfpType.USNavyMethod).2.1 "" rfl rfl).2⟩

/-- C8: for a record found in the registry, the by-name entry point of each
strategy stores in the registry exactly the record the statistics engine's
direct computation produces, and the two record-level computations agree
(they are the same function of the input record, `bfp` included). -/
theorem C8_thm : ∀ (l : ℚ → ℚ) (reg : Registry) (n : String) (u : UserInfo),
    (UserInfoManager.getUserInfo reg n).1 = some u →
    (USNavyMethod.getBfpByName l reg n).1 = some (replaceFirst reg n (UserStats.usNavyMethod l u).1) ∧
    USNavyMethod.getBfp l u = UserStats.usNavyMethod l u ∧
    (BmiMethod.getBfpByName reg n).1 = some (replaceFirst reg n (UserStats.bmiMethod u)) ∧
    BmiMethod.getBfp u = UserStats.bmiMethod u := by
  intro l reg n u h
  have hnavy : USNavyMethod.getBfp l u = UserStats.usNavyMethod l u := rfl
  have hbmi : BmiMethod.getBfp u = UserStats.bmiMethod u := rfl
  cases hg : UserInfoManager.getUserInfo reg n with
  | mk a d =>
    rw [hg] at h
    cases a with
    | none => exact Option.noConfusion h
    | some w =>
      obtain rfl : w = u := Option.some.inj h
      refine ⟨?_, hnavy, ?_, hbmi⟩
      · simp [USNavyMethod.getBfpByName, hg, hnavy]
      · simp [BmiMethod.getBfpByName, hg, hbmi]

/-- Witness for C8 at a one-record registry looked up by its own name. -/
theorem C8_witness :
    (USNavyMethod.getBfpByName (fun _ => 0) [johnRec] "john").1 =
      some (replaceFirst [johnRec] "john" (UserStats.usNavyMethod (fun _ => 0) johnRec).1) ∧
    USNavyMethod.getBfp (fun _ => 0) johnRec = UserStats.usNavyMethod (fun _ => 0) johnRec ∧
    (BmiMethod.getBfpByName [johnRec] "john").1 =
      some (replaceFirst [johnRec] "john" (UserStats.bmiMethod johnRec)) ∧
    BmiMethod.getBfp johnRec = UserStats.bmiMethod johnRec :=
  C8_thm (fun _ => 0) [johnRec] "john" johnRec (by with_unfolding_all decide)

/-- C6: the calorie lookup returns the fixed table value for every
recognized gender, age band and lifestyle; an unrecognized gender yields 0
with a reported condition; a recognized gender with age below 19 yields 0
with nothing reported. -/
theorem C6_thm : ∀ u : UserInfo,
    (u.gender = "male" → 19 ≤ u.age → u.age ≤ 30 →
      HealthAssistant.getDailyCalories u =
        ({u with daily_calories :=
            if u.lifestyle = "sedentary" then 2400
            else if u.lifestyle = "moderate" then 2800
            else if u.lifestyle = "active" then 3000 else 0}, [])) ∧
    (u.gender = "male" → 31 ≤ u.age → u.age ≤ 50 →
      HealthAssistant.getDailyCalories u =
        ({u with daily_calories :=
            if u.lifestyle = "sedentary" then 2200
            else if u.lifestyle = "moderate" then 2600
            else if u.lifestyle = "active" then 3000 else 0}, [])) ∧
    (u.gender = "male" → 50 < u.age →
      HealthAssistant.getDailyCalories u =
        ({u with daily_calories :=
            if u.lifestyle = "sedentary" then 2000
            else if u.lifestyle = "moderate" then 2400
            else if u.lifestyle = "active" then 2800 else 0}, [])) ∧
    (u.gender = "female" → 19 ≤ u.age → u.age ≤ 30 →
      HealthAssistant.getDailyCalories u =
        ({u with daily_calories :=
            if u.lifestyle = "sedentary" then 2000
            else if u.lifestyle = "moderate" then 2200
            else if u.lifestyle = "active" then 2400 else 0}, [])) ∧
    (u.gender = "female" → 31 ≤ u.age → u.age ≤ 50 →
      HealthAssistant.getDailyCalories u =
        ({u with daily_calories :=
            if u.lifestyle = "sedentary" then 1800
            else if u.lifestyle = "moderate" then 2000
            else if u.lifestyle = "active" then 2200 else 0}, [])) ∧
    (u.gender = "female" → 50 < u.age →
      HealthAssistant.getDailyCalories u =
        ({u with daily_calories :=
            if u.lifestyle = "sedentary" then 1600
            else if u.lifestyle = "moderate" then 1800
            else if u.lifestyle = "active" then 2200 else 0}, [])) ∧
    (u.gender ≠ "male" → u.gender ≠ "female" →
      HealthAssistant.getDailyCalories u = ({u with daily_calories := 0}, [Diag.unsupportedGender])) ∧
    ((u.gender = "male" ∨ u.gender = "female") → u.age < 19 →
      HealthAssistant.getDailyCalories u = ({u with daily_calories := 0}, [])) := by
  intro u
  refine ⟨?_, ?_, ?_, ?_, ?_, ?_, ?_, ?_⟩
  · intro hg h1 h2
    have hb : 19 ≤ u.age ∧ u.age ≤ 30 := ⟨h1, h2⟩
    simp [HealthAssistant.getDailyCalories, hg, hb]
  · intro hg h1 h2
    have hb1 : ¬ (19 ≤ u.age ∧ u.age ≤ 30) := by omega
    have hb : 31 ≤ u.age ∧ u.age ≤ 50 := ⟨h1, h2⟩
    simp [HealthAssistant.getDailyCalories, hg, hb1, hb]
  · intro hg h1
    have hb1 : ¬ (19 ≤ u.age ∧ u.age ≤ 30) := by omega
    have hb2 : ¬ (31 ≤ u.age ∧ u.age ≤ 50) := by omega
    simp [HealthAssistant.getDailyCalories, hg, hb1, hb2, h1]
  · intro hg h1 h2
    have hb : 19 ≤ u.age ∧ u.age ≤ 30 := ⟨h1, h2⟩
    simp [HealthAssistant.getDailyCalories, hg, hb]
  · intro hg h1 h2
    have hb1 : ¬ (19 ≤ u.age ∧ u.age ≤ 30) := by omega
    have hb : 31 ≤ u.age ∧ u.age ≤ 50 := ⟨h1, h2⟩
    simp [HealthAssistant.getDailyCalories, hg, hb1, hb]
  · intro hg h1
    have hb1 : ¬ (19 ≤ u.age ∧ u.age ≤ 30) := by omega
    have hb2 : ¬ (31 ≤ u.age ∧ u.age ≤ 50) := by omega
    simp [HealthAssistant.getDailyCalories, hg, hb1, hb2, h1]
  · intro hm hf
    simp [HealthAssistant.getDailyCalories, hm, hf]
  · rintro (hg | hg) hage <;>
    · have hb1 : ¬ (19 ≤ u.age ∧ u.age ≤ 30) := by omega
      have hb2 : ¬ (31 ≤ u.age ∧ u.age ≤ 50) := by omega
      have hb3 : ¬ (u.age > 50) := by omega
      simp [HealthAssistant.getDailyCalories, hg, hb1, hb2, hb3]

/-- Witness for C6: the two table entries the claim names, an unrecognized
gender, and a recognized gender below the table's age range. -/
theorem C6_witness :
    HealthAssistant.getDailyCalories chloeRec = ({chloeRec with daily_calories := 2400}, []) ∧
    HealthAssistant.getDailyCalories stanRec = ({stanRec with daily_calories := 2000}, []) ∧
    HealthAssistant.getDailyCalories otherGenderRec = ({otherGenderRec with daily_calories := 0}, [Diag.unsupportedGender]) ∧
    HealthAssistant.getDailyCalories samRec = ({samRec with daily_calories := 0}, []) := by
  refine ⟨?_, ?_, ?_, ?_⟩
  · have h := (C6_thm chloeRec).2.2.2.1 rfl (by decide) (by decide)
    simpa using h
  · have h := (C6_thm stanRec).2.2.1 rfl (by decide)
    simpa using h
  · exact (C6_thm otherGenderRec).2.2.2.2.2.2.1 (by decide) (by decide)
  · have h := (C6_thm samRec).2.2.2.2.2.2.2 (Or.inl rfl) (by decide)
    simpa using h

/-- C1: `GetFullStats` is intended to reload each canonical source with its
own strategy and count each method's "Normal" label, but the source passes
`BfpType::BmiMethod` for `us_user_data.csv` too and compares the US
records' categories against `"Bmi: Normal"`: on a US source holding one
15-year-old male of normal BMI the code counts one "healthy US" record,
although the record's US Navy category is the empty string (never
`"USNavy: Normal"`) for every logarithm function. -/
theorem C1_code_eval :
    (UserStats.GetFullStats (fun _ => 0) c1Fs).map (fun s => s.healthyUsArmyCount) = Except.ok 1 ∧
    (UserStats.GetFullStats (fun _ => 0) c1Fs).map (fun s => s.totalUsers) = Except.ok 2 ∧
    (UserStats.GetFullStats (fun _ => 0) c1Fs).map (fun s => s.maleCount) = Except.ok 2 ∧
    parseLine "sam,male,15,70,80,35,,170,active" = some samRec ∧
    (∀ l : ℚ → ℚ, (UserStats.usNavyMethod l samRec).1.bfp.2 = "" ∧
      (UserStats.usNavyMethod l samRec).2 = [Diag.ageOutOfRange]) := by
  refine ⟨?_, ?_, ?_, ?_, fun l => ⟨rfl, rfl⟩⟩
  · with_unfolding_all rfl
  · with_unfolding_all rfl
  · with_unfolding_all rfl
  · with_unfolding_all decide

theorem splitOnCharAux_no_delim (c : Char) (l : List Char) :
    ∀ acc, c ∉ l → splitOnCharAux c l acc = [String.mk (acc.reverse ++ l)] := by
  induction l with
  | nil => intro acc h; simp [splitOnCharAux]
  | cons x rest ih =>
    intro acc h
    have hx : ¬ (x = c) := fun he => h (he ▸ List.mem_cons_self x rest)
    rw [splitOnCharAux, if_neg hx, ih (x :: acc) (fun hm => h (List.mem_cons_of_mem x hm))]
    simp

theorem splitOnCharAux_delim (c : Char) (l1 : List Char) :
    ∀ acc l2, c ∉ l1 →
      splitOnCharAux c (l1 ++ c :: l2) acc =
        String.mk (acc.reverse ++ l1) :: splitOnCharAux c l2 [] := by
  induction l1 with
  | nil =>
    intro acc l2 _
    rw [List.nil_append, splitOnCharAux, if_pos rfl]
    simp
  | cons x rest ih =>
    intro acc l2 h
    have hx : ¬ (x = c) := fun he => h (he ▸ List.mem_cons_self x rest)
    rw [List.cons_append, splitOnCharAux, if_neg hx,
      ih (x :: acc) l2 (fun hm => h (List.mem_cons_of_mem x hm))]
    simp

theorem splitComma_joinComma : ∀ ts : List String, ts ≠ [] →
    (∀ t ∈ ts, ',' ∉ t.data) → splitOnChar ',' (joinComma ts) = ts := by
  intro ts
  induction ts with
  | nil => intro h; cases h rfl
  | cons t rest ih =>
    intro _ hcf
    cases rest with
    | nil =>
      show splitOnChar ',' (joinComma [t]) = [t]
      have h1 : joinComma [t] = t := rfl
      rw [h1]
      unfold splitOnChar
      rw [splitOnCharAux_no_delim ',' t.data [] (hcf t (List.mem_cons_self t []))]
      simp
    | cons t2 rest2 =>
      have h1 : joinComma (t :: t2 :: rest2) = t ++ "," ++ joinComma (t2 :: rest2) := rfl
      show splitOnChar ',' (joinComma (t :: t2 :: rest2)) = t :: t2 :: rest2
      rw [h1]
      unfold splitOnChar
      have hdata : (t ++ "," ++ joinComma (t2 :: rest2)).data
          = t.data ++ ',' :: (joinComma (t2 :: rest2)).data := by
        rw [String.data_append, String.data_append]
        simp
      rw [hdata, splitOnCharAux_delim ',' t.data [] _ (hcf t (List.mem_cons_self t _))]
      have h2 : splitOnCharAux ',' (joinComma (t2 :: rest2)).data [] = t2 :: rest2 :=
        ih (by simp) (fun v hv => hcf v (List.mem_cons_of_mem t hv))
      rw [h2]
      simp

set_option maxRecDepth 4000 in
/-- C3 counterexample: the female record `amyQuarterRec` (hip 97.25 cm) has
all persisted fields populated, yet encoding and decoding yields hip 97.2
(the hip field is written with one fixed decimal), so the claimed exact
round trip of the hip field fails. -/
theorem C3_cex : ¬ roundTripExact amyQuarterRec := by
  intro hrt
  obtain ⟨r2, hp, -, -, -, -, -, -, -, -, hfem, -⟩ := hrt
  have he : parseLine (UserInfoManager.writeLine amyQuarterRec) = some amyParsedRec := by
    with_unfolding_all decide
  rw [he] at hp
  obtain rfl : amyParsedRec = r2 := Option.some.inj hp
  have hcontra : amyParsedRec.hip = amyQuarterRec.hip := hfem rfl
  exact absurd hcontra (by with_unfolding_all decide)

/-- C3 (amended): encoding then decoding reproduces every persisted field
exactly — and the hip of a non-female decodes to 0 — provided no emitted
token contains the comma delimiter and each numeric field is reproduced
exactly by its own emitted formatting (the age by its decimal digits, the
weight/waist/neck/height by the 6-significant-digit default formatting,
and, for a female, the hip by the 1-decimal fixed formatting). -/
theorem C3_thm : ∀ r : UserInfo,
    (∀ t ∈ encodeTokens r, ',' ∉ t.data) →
    stoiModel (toString r.age) = some r.age →
    stodModel (fmtG6 r.weight) = some r.weight →
    stodModel (fmtG6 r.waist) = some r.waist →
    stodModel (fmtG6 r.neck) = some r.neck →
    stodModel (fmtG6 r.height) = some r.height →
    (r.gender = "female" → stodModel (double_to_string r.hip 1) = some r.hip) →
    roundTripExact r := by
  intro r hcf hage hw hwa hn hh hhip
  have hsplit : splitOnChar ',' (UserInfoManager.writeLine r) = encodeTokens r :=
    splitComma_joinComma (encodeTokens r) (by simp [encodeTokens]) hcf
  by_cases hg : r.gender = "female"
  · have hhip2 := hhip hg
    have hne : ¬ (double_to_string r.hip 1 = "") := by
      intro he
      rw [he] at hhip2
      exact Option.noConfusion hhip2
    refine ⟨{ name := r.name, gender := r.gender, age := r.age, weight := r.weight,
              waist := r.waist, neck := r.neck, hip := r.hip, height := r.height,
              lifestyle := r.lifestyle }, ?_, rfl, rfl, rfl, rfl, rfl, rfl, rfl, rfl,
            fun _ => rfl, fun hne2 => absurd hg hne2⟩
    rw [parseLine, hsplit]
    simp only [encodeTokens, if_pos hg, List.getD_cons_zero, List.getD_cons_succ,
      List.drop_succ_cons, List.drop_zero, hage, hw, hwa, hn, hh, hhip2, hne,
      Option.bind_eq_bind, Option.some_bind, if_neg hne]
    rfl
  · refine ⟨{ name := r.name, gender := r.gender, age := r.age, weight := r.weight,
              waist := r.waist, neck := r.neck, hip := 0, height := r.height,
              lifestyle := r.lifestyle }, ?_, rfl, rfl, rfl, rfl, rfl, rfl, rfl, rfl,
            fun hx => absurd hx hg, fun _ => rfl⟩
    rw [parseLine, hsplit]
    simp only [encodeTokens, if_neg hg, List.getD_cons_zero, List.getD_cons_succ,
      List.drop_succ_cons, List.drop_zero, hage, hw, hwa, hn, hh,
      Option.bind_eq_bind, Option.some_bind, if_pos rfl]
    rfl

set_option maxRecDepth 4000 in
/-- Witness for C3 at a female record whose hip (97.5 cm) has exactly one
decimal digit and whose other numbers are exactly representable in the
emitted formats. -/
theorem C3_witness : roundTripExact amyHalfRec :=
  C3_thm amyHalfRec (by with_unfolding_all decide) (by with_unfolding_all decide)
    (by with_unfolding_all decide) (by with_unfolding_all decide)
    (by with_unfolding_all decide) (by with_unfolding_all decide)
    (by with_unfolding_all decide)
